import Mathlib

/-!
Verification of the module-resolution and caching subsystem of
`jerry-port/default/default-module.c` (mikee47/jerryscript).

The C code is shallowly embedded: `jerry_value_t` handles become an inductive
type with identity given by equality, the intrusive singly linked module list
becomes a `List` of records (head first, so prepending is `cons`), and the
external collaborators (the platform's `realpath`, the filesystem consulted by
`jerry_port_read_source`, the engine's `jerry_parse`) become oracle functions
carried in an environment record.  `malloc` success is modelled by Boolean
oracles; dereferencing the result of an unchecked failed allocation is
modelled by the distinguished outcome `crash`.  The model targets the
non-Windows build (path separator `'/'` only; canonicalization via `realpath`
with fallback to the raw concatenation).  Paths are NUL-free byte strings,
modelled as `List Char`.
-/

/-- Model of `jerry_value_t` handles.  `jerry_value_copy` returns the same
handle (it only bumps a reference count), so value identity is plain equality.
`undef` models `jerry_undefined ()`, `object` models object handles (realms,
modules), `exception` models exception values. -/
inductive JerryValue where
  | undef : JerryValue
  | object (id : Nat) : JerryValue
  | exception (id : Nat) : JerryValue
deriving DecidableEq, Repr

/-- Model of `jerry_value_is_object`. -/
def jerry_value_is_object : JerryValue → Bool
  | JerryValue.object _ => true
  | _ => false

/-- Model of `jerry_value_is_exception`. -/
def jerry_value_is_exception : JerryValue → Bool
  | JerryValue.exception _ => true
  | _ => false

/-- Model of `jerry_value_copy`: acquires a reference and returns the same
handle bits. -/
def jerry_value_copy (v : JerryValue) : JerryValue := v

/-- The engine error kinds used by the resolver when it synthesizes an
exception itself via `jerry_throw_sz`: `JERRY_ERROR_COMMON` and
`JERRY_ERROR_SYNTAX`. -/
inductive ErrorKind where
  | common : ErrorKind
  | synErr : ErrorKind
deriving DecidableEq, Repr

/-- Filesystem oracle consulted by `jerry_port_read_source`.
`statResult p` is `none` when `stat` fails (missing file), `some b` when it
succeeds with `b = S_ISDIR`.  `fopenOk` tells whether `fopen` succeeds,
`allocBuf` whether the `malloc` for the content buffer succeeds, `freadShort`
whether `fread` returns fewer bytes than the file size, and `fileBytes` gives
the bytes actually read. -/
structure Fs where
  statResult : List Char → Option Bool
  fopenOk : List Char → Bool
  allocBuf : Bool
  freadShort : Bool
  fileBytes : List Char → List Nat

/-- Model of `jerry_port_read_source` (default-module.c lines 48-93): returns
`none` exactly when the C function returns `NULL` (stat failure, directory,
fopen failure, buffer allocation failure, short read). -/
def jerry_port_read_source (fs : Fs) (file_name : List Char) : Option (List Nat) :=
  match fs.statResult file_name with
  | none => none
  | some isDir =>
    if isDir then none
    else if !fs.fopenOk file_name then none
    else if !fs.allocBuf then none
    else if fs.freadShort then none
    else some (fs.fileBytes file_name)

/-- The scanning loop of `jerry_port_get_directory_end`: the first argument is
the path reversed (the C loop walks `end_p` from the end of the string towards
the start), the second is the current value of `end_p - path_p`.  Returns as
soon as the character before `end_p` is `'/'` (non-Windows build). -/
def jerry_port_get_directory_end_loop : List Char → Nat → Nat
  | [], _ => 0
  | c :: rest, e => if c = '/' then e else jerry_port_get_directory_end_loop rest (e - 1)

/-- Model of `jerry_port_get_directory_end` (default-module.c lines 109-132):
index one past the last `'/'` in the path, or `0` when there is none. -/
def jerry_port_get_directory_end (path : List Char) : Nat :=
  jerry_port_get_directory_end_loop path.reverse path.length

/-- Model of `jerry_port_normalize_path` (default-module.c lines 140-203,
non-Windows build).  `allocConcat` models the success of the `malloc` for the
concatenation buffer; on failure the C function returns `NULL` (here `none`).
`canon` models `realpath`: when it fails (`none`) the concatenated path is
returned unchanged as a fallback.  The C function receives `base_path_p`
together with a separate `base_path_length` and copies only that many bytes,
which is `base_path.take base_path_length` here. -/
def jerry_port_normalize_path (in_path : List Char) (base_path : List Char)
    (base_path_length : Nat) (allocConcat : Bool)
    (canon : List Char → Option (List Char)) : Option (List Char) :=
  if base_path_length > 0 then
    if !allocConcat then none
    else
      let p := base_path.take base_path_length ++ in_path
      some ((canon p).getD p)
  else
    if !allocConcat then none
    else some ((canon in_path).getD in_path)

/-- Model of `jerry_port_module_t` (default-module.c lines 208-215).  The
`next_p` link is represented by the record's position in a `List`. -/
structure ModuleRecord where
  path : List Char
  base_path_length : Nat
  realm : JerryValue
  module : JerryValue
deriving DecidableEq, Repr

/-- The removal loop of `jerry_port_module_free` (default-module.c lines
240-273) as a function on the list of records; it also counts how many records
the loop visits.  A record is removed (skipped) when `release_all` is set or
its realm handle equals the filter, otherwise it is kept (`prev_p` advances);
removing the head corresponds to relinking `manager_p->module_head_p`. -/
def jerry_port_module_free_loop (release_all : Bool) (realm : JerryValue) :
    List ModuleRecord → List ModuleRecord × Nat
  | [] => ([], 0)
  | m :: rest =>
    let r := jerry_port_module_free_loop release_all realm rest
    if release_all ∨ m.realm = realm then (r.1, r.2 + 1) else (m :: r.1, r.2 + 1)

/-- Model of `jerry_port_module_free` (default-module.c lines 235-274): if the
`realm` argument is not an object, release every record; otherwise release
exactly the records whose realm handle equals it. -/
def jerry_port_module_free (modules : List ModuleRecord) (realm : JerryValue) :
    List ModuleRecord :=
  (jerry_port_module_free_loop (!jerry_value_is_object realm) realm modules).1

/-- Model of `jerry_port_module_manager_init` (default-module.c lines 279-283):
the fresh manager state has a null head pointer. -/
def jerry_port_module_manager_init : List ModuleRecord := []

/-- Model of `jerry_port_module_manager_deinit` (default-module.c lines
288-294): release with the `jerry_undefined ()` filter, i.e. release all. -/
def jerry_port_module_manager_deinit (modules : List ModuleRecord) :
    List ModuleRecord :=
  jerry_port_module_free modules JerryValue.undef

/-- Model of `jerry_port_module_release` (default-module.c lines 405-410). -/
def jerry_port_module_release (modules : List ModuleRecord) (realm : JerryValue) :
    List ModuleRecord :=
  jerry_port_module_free modules realm

/-- The cache-lookup loop inside `jerry_port_module_resolve` (default-module.c
lines 343-356): first record whose realm handle is identical and whose path is
`strcmp`-equal; returns `jerry_value_copy` of its module handle. -/
def cacheLookup (modules : List ModuleRecord) (realm : JerryValue)
    (path : List Char) : Option JerryValue :=
  match modules with
  | [] => none
  | m :: rest =>
    if m.realm = realm ∧ m.path = path then some (jerry_value_copy m.module)
    else cacheLookup rest realm path

/-- Base path pointer taken from the referrer's attached record
(`jerry_object_get_native_ptr`, default-module.c lines 316-324): the record's
full path (only the first `base_path_length` bytes of it are ever used). -/
def referrerBasePath : Option ModuleRecord → List Char
  | some m => m.path
  | none => []

/-- Base path length taken from the referrer's attached record, `0` when the
referrer has none. -/
def referrerBasePathLength : Option ModuleRecord → Nat
  | some m => m.base_path_length
  | none => 0

/-- Environment of external collaborators and allocation outcomes for one call
to `jerry_port_module_resolve`.  `allocDecode` is the `malloc` for the buffer
the specifier is decoded into (line 327, unchecked in the C code),
`allocConcat` the `malloc` inside `jerry_port_normalize_path`, `allocRecord`
the `malloc` for the new `jerry_port_module_t` (line 388, unchecked).
`parse` models `jerry_parse` on the bytes read from the file: it returns a
module object on success and an exception value on failure. -/
structure ResolveEnv where
  allocDecode : Bool
  allocConcat : Bool
  allocRecord : Bool
  canon : List Char → Option (List Char)
  fs : Fs
  parse : List Nat → JerryValue

/-- What one call to the resolver produced: a returned `jerry_value_t` (a
module object or, passed through unchanged, the parser's exception value), an
exception synthesized by `jerry_throw_sz` with its kind and message, or a
crash from dereferencing the result of an unchecked failed allocation. -/
inductive ResolveResult where
  | ret (v : JerryValue) : ResolveResult
  | thrown (kind : ErrorKind) (msg : String) : ResolveResult
  | crash : ResolveResult
deriving DecidableEq, Repr

/-- Outcome of one call to `jerry_port_module_resolve`: the result, the module
list after the call, and how many times the call invoked
`jerry_port_read_source` and `jerry_parse`. -/
structure ResolveOutcome where
  result : ResolveResult
  modules : List ModuleRecord
  reads : Nat
  parses : Nat
deriving DecidableEq, Repr

/-- Model of `jerry_port_module_resolve` (default-module.c lines 309-400).
`spec` is the decoded specifier string, `referrer` the module record attached
to the referrer value (if any), `realm` the result of `jerry_current_realm`,
`modules` the manager's current record list.  Mirrors the C control flow:
decode the specifier (an unchecked `malloc`: failure means the NUL terminator
is written through a null pointer, a crash), normalize the path (`NULL` here
is reported as a `JERRY_ERROR_COMMON` "Out of memory" exception), scan the
cache, on a miss read and parse the file, and on parse success link a new
record at the head of the list with `base_path_length` recomputed by
`jerry_port_get_directory_end`. -/
def jerry_port_module_resolve (env : ResolveEnv) (spec : List Char)
    (referrer : Option ModuleRecord) (realm : JerryValue)
    (modules : List ModuleRecord) : ResolveOutcome :=
  if !env.allocDecode then
    { result := ResolveResult.crash, modules := modules, reads := 0, parses := 0 }
  else
    match jerry_port_normalize_path spec (referrerBasePath referrer)
        (referrerBasePathLength referrer) env.allocConcat env.canon with
    | none =>
      { result := ResolveResult.thrown ErrorKind.common "Out of memory",
        modules := modules, reads := 0, parses := 0 }
    | some path =>
      match cacheLookup modules realm path with
      | some v =>
        { result := ResolveResult.ret v, modules := modules, reads := 0, parses := 0 }
      | none =>
        match jerry_port_read_source env.fs path with
        | none =>
          { result := ResolveResult.thrown ErrorKind.synErr "Module file not found",
            modules := modules, reads := 1, parses := 0 }
        | some source =>
          let ret := env.parse source
          if jerry_value_is_exception ret then
            { result := ResolveResult.ret ret, modules := modules, reads := 1, parses := 1 }
          else if !env.allocRecord then
            { result := ResolveResult.crash, modules := modules, reads := 1, parses := 1 }
          else
            let newRecord : ModuleRecord :=
              { path := path,
                base_path_length := jerry_port_get_directory_end path,
                realm := realm,
                module := jerry_value_copy ret }
            { result := ResolveResult.ret ret, modules := newRecord :: modules,
              reads := 1, parses := 1 }

/-! ### Properties of `jerry_port_get_directory_end` -/

theorem dirEnd_loop_eq_zero_of_not_mem (l : List Char) (e : Nat) (h : '/' ∉ l) :
    jerry_port_get_directory_end_loop l e = 0 := by
  induction l generalizing e with
  | nil => rfl
  | cons c rest ih =>
    have hc : ¬ c = '/' := fun hc => h (hc ▸ List.mem_cons_self c rest)
    simp only [jerry_port_get_directory_end_loop, if_neg hc]
    exact ih (e - 1) (fun hm => h (List.mem_cons_of_mem c hm))

theorem dirEnd_loop_append (pre : List Char) (rest : List Char) (e : Nat)
    (h : '/' ∉ pre) :
    jerry_port_get_directory_end_loop (pre ++ '/' :: rest) e = e - pre.length := by
  induction pre generalizing e with
  | nil => simp [jerry_port_get_directory_end_loop]
  | cons c pre' ih =>
    have hc : ¬ c = '/' := fun hc => h (hc ▸ List.mem_cons_self c pre')
    simp only [List.cons_append, jerry_port_get_directory_end_loop, if_neg hc,
      List.append_eq]
    rw [ih (e - 1) (fun hm => h (List.mem_cons_of_mem c hm))]
    simp only [List.length_cons]
    omega

theorem exists_last_slash (p : List Char) (h : '/' ∈ p) :
    ∃ a b, p = a ++ '/' :: b ∧ '/' ∉ b := by
  induction p with
  | nil => cases h
  | cons c rest ih =>
    by_cases hr : '/' ∈ rest
    · obtain ⟨a, b, hab, hb⟩ := ih hr
      exact ⟨c :: a, b, by rw [hab]; rfl, hb⟩
    · have hc : c = '/' := by
        rcases List.mem_cons.mp h with h1 | h2
        · exact h1.symm
        · exact absurd h2 hr
      exact ⟨[], rest, by simp [hc], hr⟩

theorem dirEnd_eq_zero_of_not_mem (p : List Char) (h : '/' ∉ p) :
    jerry_port_get_directory_end p = 0 :=
  dirEnd_loop_eq_zero_of_not_mem p.reverse p.length
    (fun hm => h (List.mem_reverse.mp hm))

theorem dirEnd_append (a b : List Char) (h : '/' ∉ b) :
    jerry_port_get_directory_end (a ++ '/' :: b) = a.length + 1 := by
  unfold jerry_port_get_directory_end
  rw [show (a ++ '/' :: b).reverse = b.reverse ++ '/' :: a.reverse by simp]
  rw [dirEnd_loop_append b.reverse a.reverse _
    (fun hm => h (List.mem_reverse.mp hm))]
  simp only [List.length_append, List.length_cons, List.length_reverse]
  omega

theorem dirEnd_le (p : List Char) : jerry_port_get_directory_end p ≤ p.length := by
  by_cases h : '/' ∈ p
  · obtain ⟨a, b, hab, hb⟩ := exists_last_slash p h
    subst hab
    rw [dirEnd_append a b hb]
    simp only [List.length_append, List.length_cons]
    omega
  · rw [dirEnd_eq_zero_of_not_mem p h]; exact Nat.zero_le _

theorem dirEnd_take_concat (a b : List Char) (h : '/' ∉ b) (sib : List Char) :
    (a ++ '/' :: b).take (jerry_port_get_directory_end (a ++ '/' :: b)) ++ sib
      = a ++ '/' :: sib := by
  rw [dirEnd_append a b h]
  have htake : (a ++ '/' :: b).take (a.length + 1) = a ++ ['/'] := by
    rw [List.take_append_eq_append_take]
    rw [List.take_of_length_le (by omega : a.length ≤ a.length + 1)]
    have h1 : a.length + 1 - a.length = 1 := by omega
    rw [h1]
    rfl
  rw [htake]
  simp [List.append_assoc]

/-- C7: `jerry_port_get_directory_end` returns 0 when the path has no
separator, and the index just after the last `'/'` otherwise; truncating the
path to that index and appending a sibling specifier replaces everything after
the last separator with the sibling. -/
theorem C7_directory_end (p : List Char) :
    ('/' ∉ p → jerry_port_get_directory_end p = 0) ∧
    (∀ a b, p = a ++ '/' :: b → '/' ∉ b →
      jerry_port_get_directory_end p = a.length + 1 ∧
      ∀ sib : List Char,
        p.take (jerry_port_get_directory_end p) ++ sib = a ++ '/' :: sib) := by
  refine ⟨dirEnd_eq_zero_of_not_mem p, ?_⟩
  rintro a b rfl hb
  exact ⟨dirEnd_append a b hb, dirEnd_take_concat a b hb⟩

/-- Witness for C7 at the spec's concrete example: the directory end of
`"/a/b/c.js"` is 5 (the length of `"/a/b/"`), and the directory prefix with
sibling `"d.js"` appended is `"/a/b/d.js"`. -/
theorem C7_directory_end_witness :
    jerry_port_get_directory_end "/a/b/c.js".toList = "/a/b".toList.length + 1 ∧
    "/a/b/c.js".toList.take (jerry_port_get_directory_end "/a/b/c.js".toList)
        ++ "d.js".toList = "/a/b".toList ++ '/' :: "d.js".toList :=
  ⟨((C7_directory_end "/a/b/c.js".toList).2 "/a/b".toList "c.js".toList
      (by decide) (by decide)).1,
   ((C7_directory_end "/a/b/c.js".toList).2 "/a/b".toList "c.js".toList
      (by decide) (by decide)).2 "d.js".toList⟩

/-! ### Properties of `jerry_port_module_free` -/

theorem free_loop_fst_eq_filter (b : Bool) (r : JerryValue) (l : List ModuleRecord) :
    (jerry_port_module_free_loop b r l).1
      = l.filter (fun m => !(b || decide (m.realm = r))) := by
  induction l with
  | nil => rfl
  | cons m rest ih =>
    simp only [jerry_port_module_free_loop, List.filter_cons]
    by_cases hc : (b : Prop) ∨ m.realm = r
    · rw [if_pos hc]
      have hb : (b || decide (m.realm = r)) = true := by
        rcases hc with hb | hr
        · simp [hb]
        · simp [hr]
      simp [hb, ih]
    · rw [if_neg hc]
      push_neg at hc
      have hb : (b || decide (m.realm = r)) = false := by
        simp [hc.1, hc.2]
      simp [hb, ih]

theorem free_loop_snd_eq_length (b : Bool) (r : JerryValue) (l : List ModuleRecord) :
    (jerry_port_module_free_loop b r l).2 = l.length := by
  induction l with
  | nil => rfl
  | cons m rest ih =>
    simp only [jerry_port_module_free_loop, List.length_cons]
    by_cases hc : (b : Prop) ∨ m.realm = r
    · rw [if_pos hc]; simpa using ih
    · rw [if_neg hc]; simpa using ih

theorem free_loop_release_all (r : JerryValue) (l : List ModuleRecord) :
    (jerry_port_module_free_loop true r l).1 = [] := by
  rw [free_loop_fst_eq_filter]
  simp

theorem free_eq_filter_of_object (mods : List ModuleRecord) (a : Nat) :
    jerry_port_module_free mods (JerryValue.object a)
      = mods.filter (fun m => !decide (m.realm = JerryValue.object a)) := by
  unfold jerry_port_module_free
  rw [free_loop_fst_eq_filter]
  simp [jerry_value_is_object]

/-- C5: evicting with an object realm filter `A` keeps exactly the records of
other realms in their original relative order (the result is the filter of the
list by `realm ≠ A`, which also covers head relinking and the empty cache), no
record with realm `A` survives, and the loop visits every record exactly
once. -/
theorem C5_selective_eviction (mods : List ModuleRecord) (a : Nat) :
    jerry_port_module_free mods (JerryValue.object a)
        = mods.filter (fun m => !decide (m.realm = JerryValue.object a)) ∧
    (jerry_port_module_free mods (JerryValue.object a)).all
        (fun m => !decide (m.realm = JerryValue.object a)) = true ∧
    jerry_port_module_free [] (JerryValue.object a) = [] ∧
    (jerry_port_module_free_loop (!jerry_value_is_object (JerryValue.object a))
        (JerryValue.object a) mods).2 = mods.length := by
  refine ⟨free_eq_filter_of_object mods a, ?_, rfl, free_loop_snd_eq_length _ _ _⟩
  rw [free_eq_filter_of_object mods a]
  simp [List.all_eq_true]

/-- C6: evicting with a non-object realm filter (the "all realms" sentinel)
empties the cache, every subsequent lookup misses, and the context deinit
callback (which evicts with `jerry_undefined ()`) does exactly that. -/
theorem C6_release_all (mods : List ModuleRecord) (v : JerryValue)
    (h : jerry_value_is_object v = false) (r : JerryValue) (p : List Char) :
    jerry_port_module_free mods v = [] ∧
    jerry_port_module_manager_deinit mods = [] ∧
    cacheLookup (jerry_port_module_free mods v) r p = none ∧
    cacheLookup (jerry_port_module_manager_deinit mods) r p = none := by
  have hv : jerry_port_module_free mods v = [] := by
    unfold jerry_port_module_free
    rw [h]
    exact free_loop_release_all v mods
  have hd : jerry_port_module_manager_deinit mods = [] := by
    unfold jerry_port_module_manager_deinit jerry_port_module_free
    exact free_loop_release_all JerryValue.undef mods
  exact ⟨hv, hd, by rw [hv]; rfl, by rw [hd]; rfl⟩

/-- Witness for C6: a concrete two-record, two-realm cache released with the
`undefined` filter is emptied and a lookup for one of the previously cached
(realm, path) pairs misses. -/
theorem C6_release_all_witness :
    jerry_value_is_object JerryValue.undef = false ∧
    (jerry_port_module_free
        [{ path := "/a/x.js".toList, base_path_length := 3,
           realm := JerryValue.object 1, module := JerryValue.object 10 },
         { path := "/a/y.js".toList, base_path_length := 3,
           realm := JerryValue.object 2, module := JerryValue.object 11 }]
        JerryValue.undef = [] ∧
      jerry_port_module_manager_deinit
        [{ path := "/a/x.js".toList, base_path_length := 3,
           realm := JerryValue.object 1, module := JerryValue.object 10 },
         { path := "/a/y.js".toList, base_path_length := 3,
           realm := JerryValue.object 2, module := JerryValue.object 11 }] = [] ∧
      cacheLookup
        (jerry_port_module_free
          [{ path := "/a/x.js".toList, base_path_length := 3,
             realm := JerryValue.object 1, module := JerryValue.object 10 },
           { path := "/a/y.js".toList, base_path_length := 3,
             realm := JerryValue.object 2, module := JerryValue.object 11 }]
          JerryValue.undef)
        (JerryValue.object 1) "/a/x.js".toList = none ∧
      cacheLookup
        (jerry_port_module_manager_deinit
          [{ path := "/a/x.js".toList, base_path_length := 3,
             realm := JerryValue.object 1, module := JerryValue.object 10 },
           { path := "/a/y.js".toList, base_path_length := 3,
             realm := JerryValue.object 2, module := JerryValue.object 11 }])
        (JerryValue.object 1) "/a/x.js".toList = none) :=
  ⟨by decide,
   C6_release_all
     [{ path := "/a/x.js".toList, base_path_length := 3,
        realm := JerryValue.object 1, module := JerryValue.object 10 },
      { path := "/a/y.js".toList, base_path_length := 3,
        realm := JerryValue.object 2, module := JerryValue.object 11 }]
     JerryValue.undef rfl (JerryValue.object 1) "/a/x.js".toList⟩

/-! ### Properties of `jerry_port_module_resolve` -/

theorem resolve_crash_decode (env : ResolveEnv) (s : List Char)
    (ref : Option ModuleRecord) (realm : JerryValue) (mods : List ModuleRecord)
    (hd : env.allocDecode = false) :
    jerry_port_module_resolve env s ref realm mods =
      { result := ResolveResult.crash, modules := mods, reads := 0, parses := 0 } := by
  unfold jerry_port_module_resolve
  simp [hd]

theorem resolve_oom (env : ResolveEnv) (s : List Char)
    (ref : Option ModuleRecord) (realm : JerryValue) (mods : List ModuleRecord)
    (hd : env.allocDecode = true)
    (hn : jerry_port_normalize_path s (referrerBasePath ref)
        (referrerBasePathLength ref) env.allocConcat env.canon = none) :
    jerry_port_module_resolve env s ref realm mods =
      { result := ResolveResult.thrown ErrorKind.common "Out of memory",
        modules := mods, reads := 0, parses := 0 } := by
  unfold jerry_port_module_resolve
  simp [hd, hn]

theorem resolve_hit (env : ResolveEnv) (s : List Char) (ref : Option ModuleRecord)
    (realm : JerryValue) (mods : List ModuleRecord) (p : List Char) (v : JerryValue)
    (hd : env.allocDecode = true)
    (hn : jerry_port_normalize_path s (referrerBasePath ref)
        (referrerBasePathLength ref) env.allocConcat env.canon = some p)
    (hl : cacheLookup mods realm p = some v) :
    jerry_port_module_resolve env s ref realm mods =
      { result := ResolveResult.ret v, modules := mods, reads := 0, parses := 0 } := by
  unfold jerry_port_module_resolve
  simp [hd, hn, hl]

theorem resolve_read_fail (env : ResolveEnv) (s : List Char)
    (ref : Option ModuleRecord) (realm : JerryValue) (mods : List ModuleRecord)
    (p : List Char) (hd : env.allocDecode = true)
    (hn : jerry_port_normalize_path s (referrerBasePath ref)
        (referrerBasePathLength ref) env.allocConcat env.canon = some p)
    (hl : cacheLookup mods realm p = none)
    (hread : jerry_port_read_source env.fs p = none) :
    jerry_port_module_resolve env s ref realm mods =
      { result := ResolveResult.thrown ErrorKind.synErr "Module file not found",
        modules := mods, reads := 1, parses := 0 } := by
  unfold jerry_port_module_resolve
  simp [hd, hn, hl, hread]

theorem resolve_parse_exc (env : ResolveEnv) (s : List Char)
    (ref : Option ModuleRecord) (realm : JerryValue) (mods : List ModuleRecord)
    (p : List Char) (source : List Nat) (hd : env.allocDecode = true)
    (hn : jerry_port_normalize_path s (referrerBasePath ref)
        (referrerBasePathLength ref) env.allocConcat env.canon = some p)
    (hl : cacheLookup mods realm p = none)
    (hread : jerry_port_read_source env.fs p = some source)
    (he : jerry_value_is_exception (env.parse source) = true) :
    jerry_port_module_resolve env s ref realm mods =
      { result := ResolveResult.ret (env.parse source), modules := mods,
        reads := 1, parses := 1 } := by
  unfold jerry_port_module_resolve
  simp [hd, hn, hl, hread, he]

theorem resolve_insert (env : ResolveEnv) (s : List Char)
    (ref : Option ModuleRecord) (realm : JerryValue) (mods : List ModuleRecord)
    (p : List Char) (source : List Nat) (hd : env.allocDecode = true)
    (hn : jerry_port_normalize_path s (referrerBasePath ref)
        (referrerBasePathLength ref) env.allocConcat env.canon = some p)
    (hl : cacheLookup mods realm p = none)
    (hread : jerry_port_read_source env.fs p = some source)
    (he : jerry_value_is_exception (env.parse source) = false)
    (ha : env.allocRecord = true) :
    jerry_port_module_resolve env s ref realm mods =
      { result := ResolveResult.ret (env.parse source),
        modules :=
          { path := p, base_path_length := jerry_port_get_directory_end p,
            realm := realm, module := jerry_value_copy (env.parse source) } :: mods,
        reads := 1, parses := 1 } := by
  unfold jerry_port_module_resolve
  simp [hd, hn, hl, hread, he, ha]

theorem resolve_crash_record (env : ResolveEnv) (s : List Char)
    (ref : Option ModuleRecord) (realm : JerryValue) (mods : List ModuleRecord)
    (p : List Char) (source : List Nat) (hd : env.allocDecode = true)
    (hn : jerry_port_normalize_path s (referrerBasePath ref)
        (referrerBasePathLength ref) env.allocConcat env.canon = some p)
    (hl : cacheLookup mods realm p = none)
    (hread : jerry_port_read_source env.fs p = some source)
    (he : jerry_value_is_exception (env.parse source) = false)
    (ha : env.allocRecord = false) :
    jerry_port_module_resolve env s ref realm mods =
      { result := ResolveResult.crash, modules := mods, reads := 1, parses := 1 } := by
  unfold jerry_port_module_resolve
  simp [hd, hn, hl, hread, he, ha]

theorem resolve_ret_lookup (env : ResolveEnv) (s : List Char)
    (ref : Option ModuleRecord) (realm : JerryValue) (mods : List ModuleRecord)
    (p : List Char) (v : JerryValue)
    (hn : jerry_port_normalize_path s (referrerBasePath ref)
        (referrerBasePathLength ref) env.allocConcat env.canon = some p)
    (h1 : (jerry_port_module_resolve env s ref realm mods).result = ResolveResult.ret v)
    (hv : jerry_value_is_exception v = false) :
    cacheLookup (jerry_port_module_resolve env s ref realm mods).modules realm p
      = some v := by
  cases hd : env.allocDecode with
  | false =>
    rw [resolve_crash_decode env s ref realm mods hd] at h1
    cases h1
  | true =>
    cases hl : cacheLookup mods realm p with
    | some w =>
      rw [resolve_hit env s ref realm mods p w hd hn hl] at h1 ⊢
      simp only at h1 ⊢
      cases h1
      exact hl
    | none =>
      cases hread : jerry_port_read_source env.fs p with
      | none =>
        rw [resolve_read_fail env s ref realm mods p hd hn hl hread] at h1
        cases h1
      | some source =>
        cases he : jerry_value_is_exception (env.parse source) with
        | true =>
          rw [resolve_parse_exc env s ref realm mods p source hd hn hl hread he] at h1
          simp only at h1
          cases h1
          rw [he] at hv
          cases hv
        | false =>
          cases ha : env.allocRecord with
          | false =>
            rw [resolve_crash_record env s ref realm mods p source hd hn hl hread he ha] at h1
            cases h1
          | true =>
            rw [resolve_insert env s ref realm mods p source hd hn hl hread he ha] at h1 ⊢
            simp only at h1 ⊢
            cases h1
            simp [cacheLookup, jerry_value_copy]

theorem read_source_none_cases (fs : Fs) (p : List Char)
    (hf : fs.statResult p = none ∨ fs.statResult p = some true ∨ fs.fopenOk p = false) :
    jerry_port_read_source fs p = none := by
  unfold jerry_port_read_source
  rcases hf with h | h | h
  · rw [h]
  · rw [h]; simp
  · cases hs : fs.statResult p with
    | none => rfl
    | some b =>
      cases b with
      | true => simp
      | false => simp [h]

/-- C1: once a (specifier, referrer) pair has resolved successfully to a
module value `v` at normalized path `p` in some realm, any later call that
resolves to the same normalized path in the same realm returns the
identity-equal value `v` (a counted copy of the same handle), leaves the
module list unchanged (so the same holds for every subsequent call), and
invokes neither `jerry_port_read_source` nor `jerry_parse`. -/
theorem C1_idempotent_resolution (env env2 : ResolveEnv) (s s2 : List Char)
    (ref ref2 : Option ModuleRecord) (realm : JerryValue)
    (mods : List ModuleRecord) (p : List Char) (v : JerryValue)
    (hn : jerry_port_normalize_path s (referrerBasePath ref)
        (referrerBasePathLength ref) env.allocConcat env.canon = some p)
    (h1 : (jerry_port_module_resolve env s ref realm mods).result = ResolveResult.ret v)
    (hv : jerry_value_is_exception v = false)
    (hd2 : env2.allocDecode = true)
    (hn2 : jerry_port_normalize_path s2 (referrerBasePath ref2)
        (referrerBasePathLength ref2) env2.allocConcat env2.canon = some p) :
    jerry_port_module_resolve env2 s2 ref2 realm
        (jerry_port_module_resolve env s ref realm mods).modules =
      { result := ResolveResult.ret v,
        modules := (jerry_port_module_resolve env s ref realm mods).modules,
        reads := 0, parses := 0 } :=
  resolve_hit env2 s2 ref2 realm _ p v hd2 hn2
    (resolve_ret_lookup env s ref realm mods p v hn h1 hv)

/-- A filesystem on which every path stats as a regular file and reads
successfully. -/
def fsGood : Fs :=
  { statResult := fun _ => some false, fopenOk := fun _ => true,
    allocBuf := true, freadShort := false, fileBytes := fun _ => [42] }

/-- A filesystem on which `stat` fails for every path (no file exists). -/
def fsMissing : Fs :=
  { statResult := fun _ => none, fopenOk := fun _ => true,
    allocBuf := true, freadShort := false, fileBytes := fun _ => [] }

/-- Environment where every allocation succeeds, `realpath` fails (raw path
fallback), files read fine, and parsing yields module object 7. -/
def envGood : ResolveEnv :=
  { allocDecode := true, allocConcat := true, allocRecord := true,
    canon := fun _ => none, fs := fsGood, parse := fun _ => JerryValue.object 7 }

/-- Witness for C1: resolving `"m.js"` twice from an empty cache in realm 1;
the second call returns the identity-equal module value with zero reads and
zero parses and leaves the list unchanged. -/
theorem C1_idempotent_resolution_witness :
    jerry_port_normalize_path "m.js".toList (referrerBasePath none)
        (referrerBasePathLength none) envGood.allocConcat envGood.canon
      = some "m.js".toList ∧
    (jerry_port_module_resolve envGood "m.js".toList none (JerryValue.object 1) []).result
      = ResolveResult.ret (JerryValue.object 7) ∧
    jerry_value_is_exception (JerryValue.object 7) = false ∧
    envGood.allocDecode = true ∧
    jerry_port_module_resolve envGood "m.js".toList none (JerryValue.object 1)
        (jerry_port_module_resolve envGood "m.js".toList none (JerryValue.object 1) []).modules =
      { result := ResolveResult.ret (JerryValue.object 7),
        modules := (jerry_port_module_resolve envGood "m.js".toList none
          (JerryValue.object 1) []).modules,
        reads := 0, parses := 0 } :=
  ⟨rfl, rfl, rfl, rfl,
   C1_idempotent_resolution envGood envGood "m.js".toList "m.js".toList none none
     (JerryValue.object 1) [] "m.js".toList (JerryValue.object 7) rfl rfl rfl rfl rfl⟩

/-- Environment where the `malloc` for the buffer the specifier is decoded
into (default-module.c line 327) fails; the C code does not check this
allocation and writes through the null pointer. -/
def envNoDecodeAlloc : ResolveEnv :=
  { allocDecode := false, allocConcat := true, allocRecord := true,
    canon := fun _ => none, fs := fsGood, parse := fun _ => JerryValue.object 7 }

/-- Environment where the `malloc` inside `jerry_port_normalize_path` fails;
this failure is checked and surfaced. -/
def envNoConcatAlloc : ResolveEnv :=
  { allocDecode := true, allocConcat := false, allocRecord := true,
    canon := fun _ => none, fs := fsGood, parse := fun _ => JerryValue.object 7 }

/-- C2 (evaluation at the failing input): when the allocation of the
specifier-decode buffer fails, the resolver crashes (writes through a null
pointer) instead of returning the common-kind "Out of memory" exception; only
an allocation failure inside `jerry_port_normalize_path` is surfaced as that
exception. -/
theorem C2_decode_alloc_crash :
    jerry_port_module_resolve envNoDecodeAlloc "m.js".toList none
        (JerryValue.object 1) [] =
      { result := ResolveResult.crash, modules := [], reads := 0, parses := 0 } ∧
    jerry_port_module_resolve envNoConcatAlloc "m.js".toList none
        (JerryValue.object 1) [] =
      { result := ResolveResult.thrown ErrorKind.common "Out of memory",
        modules := [], reads := 0, parses := 0 } :=
  ⟨rfl, rfl⟩

/-- C3: when the normalized path cannot be read -- `stat` fails (missing
file), the path is a directory, or the file cannot be opened -- and the path
is not already cached, the resolver returns a thrown `JERRY_ERROR_SYNTAX`
exception with the fixed message "Module file not found", and the cache's
record list is exactly as before the call. -/
theorem C3_missing_file (env : ResolveEnv) (s : List Char)
    (ref : Option ModuleRecord) (realm : JerryValue) (mods : List ModuleRecord)
    (p : List Char) (hd : env.allocDecode = true)
    (hn : jerry_port_normalize_path s (referrerBasePath ref)
        (referrerBasePathLength ref) env.allocConcat env.canon = some p)
    (hl : cacheLookup mods realm p = none)
    (hf : env.fs.statResult p = none ∨ env.fs.statResult p = some true ∨
        env.fs.fopenOk p = false) :
    jerry_port_module_resolve env s ref realm mods =
      { result := ResolveResult.thrown ErrorKind.synErr "Module file not found",
        modules := mods, reads := 1, parses := 0 } :=
  resolve_read_fail env s ref realm mods p hd hn hl
    (read_source_none_cases env.fs p hf)

/-- Environment over the filesystem with no files. -/
def envMissing : ResolveEnv :=
  { allocDecode := true, allocConcat := true, allocRecord := true,
    canon := fun _ => none, fs := fsMissing, parse := fun _ => JerryValue.object 7 }

/-- Witness for C3: resolving `"nofile.js"` from an empty cache on a
filesystem where `stat` fails yields the Syntax-kind exception and leaves the
cache empty. -/
theorem C3_missing_file_witness :
    envMissing.allocDecode = true ∧
    jerry_port_normalize_path "nofile.js".toList (referrerBasePath none)
        (referrerBasePathLength none) envMissing.allocConcat envMissing.canon
      = some "nofile.js".toList ∧
    cacheLookup [] (JerryValue.object 1) "nofile.js".toList = none ∧
    envMissing.fs.statResult "nofile.js".toList = none ∧
    jerry_port_module_resolve envMissing "nofile.js".toList none
        (JerryValue.object 1) [] =
      { result := ResolveResult.thrown ErrorKind.synErr "Module file not found",
        modules := [], reads := 1, parses := 0 } :=
  ⟨rfl, rfl, rfl, rfl,
   C3_missing_file envMissing "nofile.js".toList none (JerryValue.object 1) []
     "nofile.js".toList rfl rfl rfl (Or.inl rfl)⟩

/-- C4: when `jerry_parse` reports a failure, the resolver returns the
parser's own exception value unmodified (the identical handle, neither
wrapped nor replaced), and no cache record is created: the module list after
the call is exactly the list before it. -/
theorem C4_parse_failure (env : ResolveEnv) (s : List Char)
    (ref : Option ModuleRecord) (realm : JerryValue) (mods : List ModuleRecord)
    (p : List Char) (source : List Nat) (hd : env.allocDecode = true)
    (hn : jerry_port_normalize_path s (referrerBasePath ref)
        (referrerBasePathLength ref) env.allocConcat env.canon = some p)
    (hl : cacheLookup mods realm p = none)
    (hread : jerry_port_read_source env.fs p = some source)
    (he : jerry_value_is_exception (env.parse source) = true) :
    jerry_port_module_resolve env s ref realm mods =
      { result := ResolveResult.ret (env.parse source), modules := mods,
        reads := 1, parses := 1 } :=
  resolve_parse_exc env s ref realm mods p source hd hn hl hread he

/-- Environment whose parser rejects every source with exception value 3. -/
def envParseFail : ResolveEnv :=
  { allocDecode := true, allocConcat := true, allocRecord := true,
    canon := fun _ => none, fs := fsGood, parse := fun _ => JerryValue.exception 3 }

/-- Witness for C4: resolving `"bad.js"` from an empty cache with a failing
parser returns the parser's exception value 3 itself and creates no record. -/
theorem C4_parse_failure_witness :
    envParseFail.allocDecode = true ∧
    jerry_port_normalize_path "bad.js".toList (referrerBasePath none)
        (referrerBasePathLength none) envParseFail.allocConcat envParseFail.canon
      = some "bad.js".toList ∧
    cacheLookup [] (JerryValue.object 1) "bad.js".toList = none ∧
    jerry_port_read_source envParseFail.fs "bad.js".toList = some [42] ∧
    jerry_value_is_exception (envParseFail.parse [42]) = true ∧
    jerry_port_module_resolve envParseFail "bad.js".toList none
        (JerryValue.object 1) [] =
      { result := ResolveResult.ret (envParseFail.parse [42]), modules := [],
        reads := 1, parses := 1 } :=
  ⟨rfl, rfl, rfl, rfl, rfl,
   C4_parse_failure envParseFail "bad.js".toList none (JerryValue.object 1) []
     "bad.js".toList [42] rfl rfl rfl rfl rfl⟩

/-! ### Reachable cache states and invariants -/

/-- Cache states reachable from a fresh module manager by any sequence of
resolver calls and evictions (`jerry_port_module_release` and the context
deinit callback both route through `jerry_port_module_free`). -/
inductive Reachable : List ModuleRecord → Prop where
  | init : Reachable jerry_port_module_manager_init
  | resolve_step (env : ResolveEnv) (s : List Char) (ref : Option ModuleRecord)
      (realm : JerryValue) {mods : List ModuleRecord} :
      Reachable mods →
      Reachable ((jerry_port_module_resolve env s ref realm mods).modules)
  | free_step (v : JerryValue) {mods : List ModuleRecord} :
      Reachable mods → Reachable (jerry_port_module_free mods v)

/-- At most one record per (realm, path) pair: every record's key differs
from the keys of all records after it. -/
def noDupKeys : List ModuleRecord → Bool
  | [] => true
  | m :: rest =>
    rest.all (fun m2 => !decide (m2.realm = m.realm ∧ m2.path = m.path))
      && noDupKeys rest

theorem lookup_none_all (mods : List ModuleRecord) (realm : JerryValue)
    (p : List Char) (h : cacheLookup mods realm p = none) :
    mods.all (fun m => !decide (m.realm = realm ∧ m.path = p)) = true := by
  induction mods with
  | nil => rfl
  | cons m rest ih =>
    unfold cacheLookup at h
    by_cases hc : m.realm = realm ∧ m.path = p
    · rw [if_pos hc] at h
      cases h
    · rw [if_neg hc] at h
      simp only [List.all_cons, Bool.and_eq_true]
      exact ⟨by simp [hc], ih h⟩

theorem all_filter_of_all (l : List ModuleRecord) (f q : ModuleRecord → Bool)
    (h : l.all f = true) : (l.filter q).all f = true := by
  induction l with
  | nil => rfl
  | cons m rest ih =>
    simp only [List.all_cons, Bool.and_eq_true] at h
    rw [List.filter_cons]
    by_cases hq : q m = true
    · simp only [hq, if_true, List.all_cons, Bool.and_eq_true]
      exact ⟨h.1, ih h.2⟩
    · simp only [hq, if_false]
      exact ih h.2

theorem noDupKeys_filter (l : List ModuleRecord) (q : ModuleRecord → Bool)
    (h : noDupKeys l = true) : noDupKeys (l.filter q) = true := by
  induction l with
  | nil => rfl
  | cons m rest ih =>
    simp only [noDupKeys, Bool.and_eq_true] at h
    rw [List.filter_cons]
    by_cases hq : q m = true
    · simp only [hq, if_true, noDupKeys, Bool.and_eq_true]
      exact ⟨all_filter_of_all rest _ q h.1, ih h.2⟩
    · simp only [hq, if_false]
      exact ih h.2

theorem free_preserves_noDupKeys (mods : List ModuleRecord) (v : JerryValue)
    (h : noDupKeys mods = true) :
    noDupKeys (jerry_port_module_free mods v) = true := by
  unfold jerry_port_module_free
  rw [free_loop_fst_eq_filter]
  exact noDupKeys_filter mods _ h

theorem resolve_preserves_noDupKeys (env : ResolveEnv) (s : List Char)
    (ref : Option ModuleRecord) (realm : JerryValue) (mods : List ModuleRecord)
    (h : noDupKeys mods = true) :
    noDupKeys (jerry_port_module_resolve env s ref realm mods).modules = true := by
  cases hd : env.allocDecode with
  | false => rw [resolve_crash_decode env s ref realm mods hd]; exact h
  | true =>
    cases hn : jerry_port_normalize_path s (referrerBasePath ref)
        (referrerBasePathLength ref) env.allocConcat env.canon with
    | none => rw [resolve_oom env s ref realm mods hd hn]; exact h
    | some p =>
      cases hl : cacheLookup mods realm p with
      | some w => rw [resolve_hit env s ref realm mods p w hd hn hl]; exact h
      | none =>
        cases hread : jerry_port_read_source env.fs p with
        | none => rw [resolve_read_fail env s ref realm mods p hd hn hl hread]; exact h
        | some source =>
          cases he : jerry_value_is_exception (env.parse source) with
          | true =>
            rw [resolve_parse_exc env s ref realm mods p source hd hn hl hread he]
            exact h
          | false =>
            cases ha : env.allocRecord with
            | false =>
              rw [resolve_crash_record env s ref realm mods p source hd hn hl hread he ha]
              exact h
            | true =>
              rw [resolve_insert env s ref realm mods p source hd hn hl hread he ha]
              simp only [noDupKeys, Bool.and_eq_true]
              exact ⟨lookup_none_all mods realm p hl, h⟩

/-- C8: in every cache state reachable by any sequence of resolve and evict
operations, at most one record exists per (realm handle, normalized path)
pair; the resolver only links a new record in after the full-list lookup has
found no match, and eviction only removes records. -/
theorem C8_at_most_one_record (mods : List ModuleRecord) (h : Reachable mods) :
    noDupKeys mods = true := by
  induction h with
  | init => rfl
  | resolve_step env s ref realm _ ih =>
    exact resolve_preserves_noDupKeys env s ref realm _ ih
  | free_step v _ ih => exact free_preserves_noDupKeys _ v ih

/-- Witness for C8: the state after one successful resolve from a fresh
manager is reachable and duplicate-free. -/
theorem C8_at_most_one_record_witness :
    Reachable (jerry_port_module_resolve envGood "m.js".toList none
        (JerryValue.object 1) jerry_port_module_manager_init).modules ∧
    noDupKeys (jerry_port_module_resolve envGood "m.js".toList none
        (JerryValue.object 1) jerry_port_module_manager_init).modules = true :=
  ⟨Reachable.resolve_step envGood "m.js".toList none (JerryValue.object 1)
      Reachable.init,
   C8_at_most_one_record _
     (Reachable.resolve_step envGood "m.js".toList none (JerryValue.object 1)
       Reachable.init)⟩

/-- A cache record is well formed when its `base_path_length` is the
directory end of its path: never longer than the path, and either 0 or the
index just past a `'/'`, so that truncating the path to it yields a directory
prefix ending in the separator. -/
def recordWellFormed (m : ModuleRecord) : Prop :=
  m.base_path_length = jerry_port_get_directory_end m.path ∧
  m.base_path_length ≤ m.path.length ∧
  (m.base_path_length = 0 ∨
    (m.path.take m.base_path_length).getLast? = some '/')

theorem take_append_slash (a b : List Char) :
    (a ++ '/' :: b).take (a.length + 1) = a ++ ['/'] := by
  rw [List.take_append_eq_append_take]
  rw [List.take_of_length_le (by omega : a.length ≤ a.length + 1)]
  have h1 : a.length + 1 - a.length = 1 := by omega
  rw [h1]
  rfl

theorem dirEnd_take_getLast (p : List Char)
    (h : jerry_port_get_directory_end p ≠ 0) :
    (p.take (jerry_port_get_directory_end p)).getLast? = some '/' := by
  by_cases hm : '/' ∈ p
  · obtain ⟨a, b, rfl, hb⟩ := exists_last_slash p hm
    rw [dirEnd_append a b hb, take_append_slash a b]
    simp
  · exact absurd (dirEnd_eq_zero_of_not_mem p hm) h

theorem recordWellFormed_of_dirEnd (p : List Char) (realm v : JerryValue) :
    recordWellFormed
      { path := p, base_path_length := jerry_port_get_directory_end p,
        realm := realm, module := v } := by
  refine ⟨rfl, dirEnd_le p, ?_⟩
  by_cases h0 : jerry_port_get_directory_end p = 0
  · exact Or.inl h0
  · exact Or.inr (dirEnd_take_getLast p h0)

theorem resolve_preserves_wf (env : ResolveEnv) (s : List Char)
    (ref : Option ModuleRecord) (realm : JerryValue) (mods : List ModuleRecord)
    (h : ∀ m ∈ mods, recordWellFormed m) :
    ∀ m ∈ (jerry_port_module_resolve env s ref realm mods).modules,
      recordWellFormed m := by
  cases hd : env.allocDecode with
  | false => rw [resolve_crash_decode env s ref realm mods hd]; exact h
  | true =>
    cases hn : jerry_port_normalize_path s (referrerBasePath ref)
        (referrerBasePathLength ref) env.allocConcat env.canon with
    | none => rw [resolve_oom env s ref realm mods hd hn]; exact h
    | some p =>
      cases hl : cacheLookup mods realm p with
      | some w => rw [resolve_hit env s ref realm mods p w hd hn hl]; exact h
      | none =>
        cases hread : jerry_port_read_source env.fs p with
        | none => rw [resolve_read_fail env s ref realm mods p hd hn hl hread]; exact h
        | some source =>
          cases he : jerry_value_is_exception (env.parse source) with
          | true =>
            rw [resolve_parse_exc env s ref realm mods p source hd hn hl hread he]
            exact h
          | false =>
            cases ha : env.allocRecord with
            | false =>
              rw [resolve_crash_record env s ref realm mods p source hd hn hl hread he ha]
              exact h
            | true =>
              rw [resolve_insert env s ref realm mods p source hd hn hl hread he ha]
              intro m hm
              rcases List.mem_cons.mp hm with rfl | hm'
              · exact recordWellFormed_of_dirEnd p realm
                  (jerry_value_copy (env.parse source))
              · exact h m hm'

theorem free_preserves_wf (mods : List ModuleRecord) (v : JerryValue)
    (h : ∀ m ∈ mods, recordWellFormed m) :
    ∀ m ∈ jerry_port_module_free mods v, recordWellFormed m := by
  unfold jerry_port_module_free
  rw [free_loop_fst_eq_filter]
  intro m hm
  exact h m (List.mem_of_mem_filter hm)

/-- C10: in every reachable cache state, every record's `base_path_length`
equals `jerry_port_get_directory_end` of its stored path; it never exceeds
the path's length and is either 0 or the index just past a `'/'`, so
truncating the path to it always yields a directory prefix ending in the
separator. -/
theorem C10_record_wellformed (mods : List ModuleRecord) (h : Reachable mods) :
    ∀ m ∈ mods, recordWellFormed m := by
  induction h with
  | init => intro m hm; cases hm
  | resolve_step env s ref realm _ ih =>
    exact resolve_preserves_wf env s ref realm _ ih
  | free_step v _ ih => exact free_preserves_wf _ v ih

/-- Witness for C10: after resolving `"/a/m.js"` from a fresh manager the
inserted record is in the reachable state and is well formed (its
`base_path_length` is 3, the length of `"/a/"`). -/
theorem C10_record_wellformed_witness :
    Reachable (jerry_port_module_resolve envGood "/a/m.js".toList none
        (JerryValue.object 1) jerry_port_module_manager_init).modules ∧
    recordWellFormed
      { path := "/a/m.js".toList,
        base_path_length := jerry_port_get_directory_end "/a/m.js".toList,
        realm := JerryValue.object 1,
        module := jerry_value_copy (envGood.parse [42]) } :=
  ⟨Reachable.resolve_step envGood "/a/m.js".toList none (JerryValue.object 1)
      Reachable.init,
   C10_record_wellformed _
     (Reachable.resolve_step envGood "/a/m.js".toList none (JerryValue.object 1)
       Reachable.init)
     _ (by decide)⟩

/-- C9: with a positive base path length the path handed to the
canonicalization facility is always the concatenation of the base-directory
prefix and the specifier, even when the specifier itself is absolute: the
specifier is never used alone, since the concatenation differs from it. -/
theorem C9_base_prepended (spec base : List Char) (bl : Nat)
    (canon : List Char → Option (List Char))
    (hbl : 0 < bl) (hbase : 0 < base.length) :
    jerry_port_normalize_path spec base bl true canon
      = some ((canon (base.take bl ++ spec)).getD (base.take bl ++ spec)) ∧
    base.take bl ++ spec ≠ spec := by
  constructor
  · unfold jerry_port_normalize_path
    simp [hbl]
  · intro hcontra
    have hlen : (base.take bl ++ spec).length = spec.length := by rw [hcontra]
    rw [List.length_append, List.length_take] at hlen
    omega

/-- Witness for C9: the absolute specifier `"/abs.js"` resolved against base
directory `"/a/b/"` (the first 5 bytes of the referrer path `"/a/b/x.js"`)
is still prefixed, yielding `"/a/b//abs.js"`, not `"/abs.js"`. -/
theorem C9_base_prepended_witness :
    0 < 5 ∧ 0 < "/a/b/x.js".toList.length ∧
    jerry_port_normalize_path "/abs.js".toList "/a/b/x.js".toList 5 true
        (fun _ => none) = some "/a/b//abs.js".toList ∧
    "/a/b/x.js".toList.take 5 ++ "/abs.js".toList ≠ "/abs.js".toList :=
  ⟨by decide, by decide,
   by
     have h := (C9_base_prepended "/abs.js".toList "/a/b/x.js".toList 5
       (fun _ => none) (by decide) (by decide)).1
     rw [h]
     decide,
   (C9_base_prepended "/abs.js".toList "/a/b/x.js".toList 5
     (fun _ => none) (by decide) (by decide)).2⟩
